import Mathlib

/-!
Verification of the `log_reader/read_log.py` HTCondor log parser.

The Python source is shallowly embedded below.  Pure string manipulation
(`str.split`, `str.startswith`, substring tests, `str.isdigit`) is modelled
by structurally recursive functions over `List Char`; `datetime.strptime`
with the format `'%Y-%m-%d %H:%M:%S'` is modelled field by field after
CPython's `_strptime` regular expressions; Python exceptions
(`ValueError`, `KeyError`, `IndexError`) become an explicit error type
carried by `Except`; `datetime.now()` becomes an explicit `Now` parameter;
the opened file becomes an `Option (List String)` argument (`none` models
an `IOError` on `open`).
-/

namespace LogReader

/-- The Python exceptions that the parser can raise:
`ValueError` (from `strptime` / `datetime.replace`), `KeyError`
(missing dict key, e.g. `jobReport["execTime"]`), `IndexError`
(out-of-range list index, e.g. `numbers[0]` on an empty list). -/
inductive PyErr where
  | valueError : PyErr
  | keyError : PyErr
  | indexError : PyErr
deriving DecidableEq, Repr

/-- A resolved `datetime.datetime` value (second granularity, as produced
by the `'%Y-%m-%d %H:%M:%S'` format). -/
structure DateTime where
  year : Nat
  month : Nat
  day : Nat
  hour : Nat
  minute : Nat
  second : Nat
deriving DecidableEq, Repr

/-- The year and month of `datetime.now()`, the only parts of the current
moment that `parse_time` reads. -/
structure Now where
  year : Nat
  month : Nat
deriving DecidableEq, Repr

/-- The `usage` dictionary built by `parse_resources`: optional keys
`diskUsage` and `memUsage`. -/
structure Usage where
  diskUsage : Option Nat := none
  memUsage : Option Nat := none
deriving DecidableEq, Repr

/-- The `jobReport` dictionary built by `read_log`; every key except
`path` is optional. -/
structure JobReport where
  path : String
  subTime : Option DateTime := none
  execTime : Option DateTime := none
  evictTime : Option DateTime := none
  termTime : Option DateTime := none
  abortedTime : Option DateTime := none
  runTime : Option Int := none
  usage : Option Usage := none
deriving DecidableEq, Repr

instance {ε α : Type} [DecidableEq ε] [DecidableEq α] : DecidableEq (Except ε α) := fun a b =>
  match a, b with
  | Except.error e, Except.error f =>
    if h : e = f then isTrue (by rw [h]) else isFalse fun hh => h (Except.error.inj hh)
  | Except.error _, Except.ok _ => isFalse fun hh => Except.noConfusion hh
  | Except.ok _, Except.error _ => isFalse fun hh => Except.noConfusion hh
  | Except.ok x, Except.ok y =>
    if h : x = y then isTrue (by rw [h]) else isFalse fun hh => h (Except.ok.inj hh)

/-! ### String primitives (models of the Python `str` methods used) -/

/-- `isPre p s` : the list `p` is a leading segment of `s`
(model of Python `str.startswith` on the underlying characters). -/
def isPre : List Char → List Char → Bool
  | [], _ => true
  | _ :: _, [] => false
  | a :: as, b :: bs => a == b && isPre as bs

/-- Python `s.startswith(pre)`. -/
def pyStartsWith (s pre : String) : Bool := isPre pre.data s.data

/-- `containsSub s pat` : `pat` occurs contiguously in `s`
(model of Python `pat in s`). -/
def containsSub : List Char → List Char → Bool
  | [], pat => pat.isEmpty
  | c :: t, pat => isPre pat (c :: t) || containsSub t pat

/-- Python `pat in s` (substring containment). -/
def pyContains (s pat : String) : Bool := containsSub s.data pat.data

/-- Split a character list at every character satisfying `p`, keeping
empty pieces (so `splitPred p l` always has at least one piece). -/
def splitPred (p : Char → Bool) : List Char → List (List Char)
  | [] => [[]]
  | c :: t =>
    match splitPred p t with
    | [] => [[c]]
    | h :: rest => if p c then [] :: h :: rest else (c :: h) :: rest

/-- Python `s.split(sep)` for a one-character separator: splits at every
occurrence, keeping empty pieces. -/
def pySplitOnChar (sep : Char) (s : String) : List String :=
  (splitPred (fun c => c == sep) s.data).map (fun l => String.mk l)

/-- Python `s.split()` (no argument): split on whitespace runs, dropping
empty pieces. -/
def pySplitWs (s : String) : List String :=
  ((splitPred (fun c => c.isWhitespace) s.data).filter
    (fun l => !l.isEmpty)).map (fun l => String.mk l)

/-- Python `s.isdigit()` for ASCII text: nonempty and all digits. -/
def pyIsDigit (s : String) : Bool := !s.data.isEmpty && s.data.all (fun c => c.isDigit)

/-- Python `int(s)` on a digit string. -/
def pyInt (s : String) : Nat := s.data.foldl (fun a c => a * 10 + (c.toNat - 48)) 0

/-! ### Calendar arithmetic (model of `datetime`) -/

/-- Gregorian leap-year test, as in Python's `calendar.isleap`. -/
def isLeap (y : Nat) : Bool := (y % 4 == 0 && y % 100 != 0) || y % 400 == 0

/-- Number of days in month `m` of year `y`. -/
def daysInMonth (y m : Nat) : Nat :=
  if m == 2 then (if isLeap y then 29 else 28)
  else if m == 4 || m == 6 || m == 9 || m == 11 then 30
  else 31

/-- Days in all years strictly before year `y` (Python `_days_before_year`). -/
def daysBeforeYear (y : Nat) : Nat :=
  let p := y - 1
  365 * p + p / 4 + p / 400 - p / 100

/-- Days in year `y` strictly before month `m`. -/
def daysBeforeMonth (y m : Nat) : Nat :=
  ((List.range (m - 1)).map (fun i => daysInMonth y (i + 1))).sum

/-- Absolute second count of a `DateTime` (proleptic Gregorian ordinal,
as used by `datetime` subtraction). -/
def toSecs (dt : DateTime) : Nat :=
  (daysBeforeYear dt.year + daysBeforeMonth dt.year dt.month + dt.day) * 86400
    + dt.hour * 3600 + dt.minute * 60 + dt.second

/-! ### `datetime.strptime` with format `'%Y-%m-%d %H:%M:%S'`

Modelled after CPython `_strptime`: each directive is compiled to a
regular expression (`%Y` ↦ `\d\d\d\d`, `%m` ↦ `1[0-2]|0[1-9]|[1-9]`,
`%d` ↦ `3[01]|[12]\d|0[1-9]|[1-9]`, `%H` ↦ `2[0-3]|[0-1]\d|\d`,
`%M` ↦ `[0-5]\d|\d`, `%S` ↦ `6[0-1]|[0-5]\d|\d`), alternatives tried in
order; the whole string must be consumed; then the `datetime` constructor
re-validates day-of-month and rejects leap seconds. -/

/-- Numeric value of a digit character. -/
def digitVal (c : Char) : Nat := c.toNat - 48

/-- `%Y`: exactly four digits. -/
def takeY : List Char → Option (Nat × List Char)
  | a :: b :: c :: d :: rest =>
    if a.isDigit && b.isDigit && c.isDigit && d.isDigit then
      some (digitVal a * 1000 + digitVal b * 100 + digitVal c * 10 + digitVal d, rest)
    else none
  | _ => none

/-- `%m`: `1[0-2]|0[1-9]|[1-9]`, alternatives in order. -/
def takeM : List Char → Option (Nat × List Char)
  | [] => none
  | [c] => if '1' ≤ c && c ≤ '9' then some (digitVal c, []) else none
  | c1 :: c2 :: rest =>
    if c1 == '1' && ('0' ≤ c2 && c2 ≤ '2') then some (10 + digitVal c2, rest)
    else if c1 == '0' && ('1' ≤ c2 && c2 ≤ '9') then some (digitVal c2, rest)
    else if '1' ≤ c1 && c1 ≤ '9' then some (digitVal c1, c2 :: rest)
    else none

/-- `%d`: `3[01]|[12]\d|0[1-9]|[1-9]`, alternatives in order. -/
def takeD : List Char → Option (Nat × List Char)
  | [] => none
  | [c] => if '1' ≤ c && c ≤ '9' then some (digitVal c, []) else none
  | c1 :: c2 :: rest =>
    if c1 == '3' && (c2 == '0' || c2 == '1') then some (30 + digitVal c2, rest)
    else if (c1 == '1' || c1 == '2') && c2.isDigit then
      some (digitVal c1 * 10 + digitVal c2, rest)
    else if c1 == '0' && ('1' ≤ c2 && c2 ≤ '9') then some (digitVal c2, rest)
    else if '1' ≤ c1 && c1 ≤ '9' then some (digitVal c1, c2 :: rest)
    else none

/-- `%H`: `2[0-3]|[0-1]\d|\d`, alternatives in order. -/
def takeH : List Char → Option (Nat × List Char)
  | [] => none
  | [c] => if c.isDigit then some (digitVal c, []) else none
  | c1 :: c2 :: rest =>
    if c1 == '2' && ('0' ≤ c2 && c2 ≤ '3') then some (20 + digitVal c2, rest)
    else if (c1 == '0' || c1 == '1') && c2.isDigit then
      some (digitVal c1 * 10 + digitVal c2, rest)
    else if c1.isDigit then some (digitVal c1, c2 :: rest)
    else none

/-- `%M`: `[0-5]\d|\d`, alternatives in order. -/
def takeMin : List Char → Option (Nat × List Char)
  | [] => none
  | [c] => if c.isDigit then some (digitVal c, []) else none
  | c1 :: c2 :: rest =>
    if ('0' ≤ c1 && c1 ≤ '5') && c2.isDigit then
      some (digitVal c1 * 10 + digitVal c2, rest)
    else if c1.isDigit then some (digitVal c1, c2 :: rest)
    else none

/-- `%S`: `6[0-1]|[0-5]\d|\d`, alternatives in order (the regex admits
leap seconds; the `datetime` constructor rejects them afterwards). -/
def takeS : List Char → Option (Nat × List Char)
  | [] => none
  | [c] => if c.isDigit then some (digitVal c, []) else none
  | c1 :: c2 :: rest =>
    if c1 == '6' && (c2 == '0' || c2 == '1') then some (60 + digitVal c2, rest)
    else if ('0' ≤ c1 && c1 ≤ '5') && c2.isDigit then
      some (digitVal c1 * 10 + digitVal c2, rest)
    else if c1.isDigit then some (digitVal c1, c2 :: rest)
    else none

/-- Consume one expected literal character. -/
def takeLit (c : Char) : List Char → Option (List Char)
  | [] => none
  | x :: rest => if x == c then some rest else none

/-- `datetime.strptime(s, '%Y-%m-%d %H:%M:%S')`: match the whole string,
then apply the `datetime` constructor checks (`1 <= year <= 9999`,
day within the month, `second <= 59`). -/
def pyStrptime (s : String) : Option DateTime :=
  match takeY s.data with
  | none => none
  | some (y, r1) =>
    match takeLit '-' r1 with
    | none => none
    | some r2 =>
      match takeM r2 with
      | none => none
      | some (mo, r3) =>
        match takeLit '-' r3 with
        | none => none
        | some r4 =>
          match takeD r4 with
          | none => none
          | some (d, r5) =>
            match takeLit ' ' r5 with
            | none => none
            | some r6 =>
              match takeH r6 with
              | none => none
              | some (h, r7) =>
                match takeLit ':' r7 with
                | none => none
                | some r8 =>
                  match takeMin r8 with
                  | none => none
                  | some (mi, r9) =>
                    match takeLit ':' r9 with
                    | none => none
                    | some r10 =>
                      match takeS r10 with
                      | none => none
                      | some (sec, r11) =>
                        if r11.isEmpty && 1 ≤ y && y ≤ 9999
                            && d ≤ daysInMonth y mo && sec ≤ 59 then
                          some ⟨y, mo, d, h, mi, sec⟩
                        else none

/-- `datetime.replace(year=y)`: re-validates the date with the new year
(`ValueError` if the day no longer fits the month, e.g. Feb 29 moved to
a non-leap year, or `y` is outside `1..9999`). -/
def replaceYear (dt : DateTime) (y : Nat) : Option DateTime :=
  if 1 ≤ y && y ≤ 9999 && dt.day ≤ daysInMonth y dt.month then
    some { dt with year := y }
  else none

/-! ### The three source functions -/

/-- First line of a chunk: `chunk.split('\n')[0]` (always defined, a
split result is never empty). -/
def firstLine (chunk : String) : String := (pySplitOnChar '\n' chunk).headD ""

/-- `parse_time(line)` from the source, with `datetime.now()` made an
explicit `now` argument.  The line is split on single spaces, tokens 2
and 3 are joined and fed to `strptime` with format `'%Y-%m-%d %H:%M:%S'`,
then the year is replaced by `now.year - 1` (when the parsed month is
December and `now` is in January) or `now.year`. -/
def parse_time (now : Now) (line : String) : Except PyErr DateTime :=
  let toks := pySplitOnChar ' ' line
  match toks.get? 2, toks.get? 3 with
  | some t2, some t3 =>
    match pyStrptime (t2 ++ " " ++ t3) with
    | none => Except.error PyErr.valueError
    | some dt =>
      if dt.month == 12 && now.month == 1 then
        match replaceYear dt (now.year - 1) with
        | some d2 => Except.ok d2
        | none => Except.error PyErr.valueError
      else
        match replaceYear dt now.year with
        | some d2 => Except.ok d2
        | none => Except.error PyErr.valueError
  | _, _ => Except.error PyErr.indexError

/-- First element of `[int(s) for s in line.split() if s.isdigit()]`. -/
def firstNum (line : String) : Option Nat :=
  match ((pySplitWs line).filter pyIsDigit).map pyInt with
  | [] => none
  | n :: _ => some n

/-- One iteration of the `parse_resources` loop body: the `"Disk"` block
then the `"Memory"` block, each indexing `numbers[0]` (an `IndexError`
when no numeric token exists on the line). -/
def resLine (u : Usage) (line : String) : Except PyErr Usage :=
  match
    (if pyContains line "Disk" then
      match firstNum line with
      | none => Except.error PyErr.indexError
      | some n => Except.ok { u with diskUsage := some n }
    else Except.ok u) with
  | Except.error e => Except.error e
  | Except.ok u1 =>
    if pyContains line "Memory" then
      match firstNum line with
      | none => Except.error PyErr.indexError
      | some n => Except.ok { u1 with memUsage := some n }
    else Except.ok u1

/-- Left fold of `resLine` over the lines of a chunk. -/
def resFold (u : Usage) : List String → Except PyErr Usage
  | [] => Except.ok u
  | l :: ls =>
    match resLine u l with
    | Except.error e => Except.error e
    | Except.ok u2 => resFold u2 ls

/-- `parse_resources(chunk)` from the source: split the chunk on
newlines and scan every line for `"Disk"` / `"Memory"`. -/
def parse_resources (chunk : String) : Except PyErr Usage :=
  resFold {} (pySplitOnChar '\n' chunk)

/-- The `jobReport` right after `jobReport["path"] = path`. -/
def initReport (p : String) : JobReport := { path := p }

/-- The dispatch on a completed chunk inside `read_log`'s loop: the
`elif` chain on `chunk.startswith(code)`.  Codes 004/005 read
`jobReport["execTime"]` (a `KeyError` when absent), store the `timedelta`
as `days * 86400 + seconds` (the exact signed difference in seconds) and
parse the resource table; 006 is a no-op; 009 stores only `abortedTime`;
anything else only optionally logs. -/
def dispatchChunk (now : Now) (r : JobReport) (chunk : String) : Except PyErr JobReport :=
  if pyStartsWith chunk "000" then
    match parse_time now (firstLine chunk) with
    | Except.error e => Except.error e
    | Except.ok t => Except.ok { r with subTime := some t }
  else if pyStartsWith chunk "001" then
    match parse_time now (firstLine chunk) with
    | Except.error e => Except.error e
    | Except.ok t => Except.ok { r with execTime := some t }
  else if pyStartsWith chunk "004" then
    match parse_time now (firstLine chunk) with
    | Except.error e => Except.error e
    | Except.ok t =>
      match r.execTime with
      | none => Except.error PyErr.keyError
      | some ex =>
        match parse_resources chunk with
        | Except.error e => Except.error e
        | Except.ok u =>
          Except.ok { r with evictTime := some t,
                             runTime := some ((toSecs t : Int) - (toSecs ex : Int)),
                             usage := some u }
  else if pyStartsWith chunk "005" then
    match parse_time now (firstLine chunk) with
    | Except.error e => Except.error e
    | Except.ok t =>
      match r.execTime with
      | none => Except.error PyErr.keyError
      | some ex =>
        match parse_resources chunk with
        | Except.error e => Except.error e
        | Except.ok u =>
          Except.ok { r with termTime := some t,
                             runTime := some ((toSecs t : Int) - (toSecs ex : Int)),
                             usage := some u }
  else if pyStartsWith chunk "006" then
    Except.ok r
  else if pyStartsWith chunk "009" then
    match parse_time now (firstLine chunk) with
    | Except.error e => Except.error e
    | Except.ok t => Except.ok { r with abortedTime := some t }
  else
    Except.ok r

/-- The `for line in logfile` loop: buffer non-separator lines, dispatch
the buffer at every line starting with `"..."`. -/
def lineFoldE (now : Now) (r : JobReport) (buf : String) : List String → Except PyErr (JobReport × String)
  | [] => Except.ok (r, buf)
  | l :: ls =>
    if pyStartsWith l "..." then
      match dispatchChunk now r buf with
      | Except.error e => Except.error e
      | Except.ok r2 => lineFoldE now r2 "" ls
    else lineFoldE now r (buf ++ l) ls

/-- `read_log(path)` from the source.  The opened file is modelled as
`Option (List String)` (the lines yielded by `for line in logfile`,
line terminators included); `none` models an `IOError` on `open`, which
the source catches and turns into `return None`.  Any other exception
escapes the `try` block and is an `Except.error`. -/
def read_log (now : Now) (p : String) (file : Option (List String)) :
    Except PyErr (Option JobReport) :=
  match file with
  | none => Except.ok none
  | some ls =>
    match lineFoldE now (initReport p) "" ls with
    | Except.error e => Except.error e
    | Except.ok (r, _) => Except.ok (some r)

/-! ### Analysis definitions

`read_log`'s loop interleaves buffering and dispatch; the following
definitions factor it into "extract the separator-terminated chunks"
and "fold the dispatch over them", which `lineFoldE_eq_chunks` proves
equivalent.  `execAfter` tracks the `execTime` entry across a chunk
sequence. -/

/-- Dispatch folded over an explicit chunk list. -/
def chunkFoldE (now : Now) (r : JobReport) : List String → Except PyErr JobReport
  | [] => Except.ok r
  | c :: cs =>
    match dispatchChunk now r c with
    | Except.error e => Except.error e
    | Except.ok r2 => chunkFoldE now r2 cs

/-- The separator-terminated chunks of a line list, given the current
buffer: first component the dispatched chunks in order, second the
trailing unterminated buffer (never dispatched). -/
def chunksAux (buf : String) : List String → List String × String
  | [] => ([], buf)
  | l :: ls =>
    if pyStartsWith l "..." then
      let p := chunksAux "" ls
      (buf :: p.1, p.2)
    else chunksAux (buf ++ l) ls

/-- The `execTime` entry after dispatching a chunk list, starting from
entry `e`: only chunks classified as code 001 replace it. -/
def execAfter (now : Now) : Option DateTime → List String → Option DateTime
  | e, [] => e
  | e, c :: cs =>
    execAfter now
      (if pyStartsWith c "001" then
        (match parse_time now (firstLine c) with
         | Except.ok t => some t
         | Except.error _ => e)
      else e) cs

/-! ### Helper lemmas -/

theorem isPre_shape {a : Char} {l : List Char} (h : isPre ['0', '0', a] l = true) :
    ∃ t, l = '0' :: '0' :: a :: t := by
  match l with
  | [] => simp [isPre] at h
  | [x] => simp [isPre] at h
  | [x, y] => simp [isPre] at h
  | x :: y :: z :: t =>
    simp only [isPre, Bool.and_eq_true, beq_iff_eq] at h
    obtain ⟨h1, h2, h3, -⟩ := h
    exact ⟨t, by rw [← h1, ← h2, ← h3]⟩

theorem isPre_code_ne {a b : Char} {l : List Char} (h : isPre ['0', '0', a] l = true)
    (hne : b ≠ a) : isPre ['0', '0', b] l = false := by
  obtain ⟨t, rfl⟩ := isPre_shape h
  simp [isPre, hne]

theorem pyStartsWith_code_ne {s : String} {a b : Char}
    (h : pyStartsWith s (String.mk ['0', '0', a]) = true) (hne : b ≠ a) :
    pyStartsWith s (String.mk ['0', '0', b]) = false := isPre_code_ne h hne

theorem dispatch_code000 (now : Now) (r : JobReport) (c : String)
    (h : pyStartsWith c "000" = true) :
    dispatchChunk now r c =
      match parse_time now (firstLine c) with
      | Except.error e => Except.error e
      | Except.ok t => Except.ok { r with subTime := some t } := by
  simp [dispatchChunk, h]

theorem dispatch_code001 (now : Now) (r : JobReport) (c : String)
    (h : pyStartsWith c "001" = true) :
    dispatchChunk now r c =
      match parse_time now (firstLine c) with
      | Except.error e => Except.error e
      | Except.ok t => Except.ok { r with execTime := some t } := by
  have h0 : pyStartsWith c "000" = false := pyStartsWith_code_ne h (by decide)
  simp [dispatchChunk, h, h0]

theorem dispatch_code004 (now : Now) (r : JobReport) (c : String)
    (h : pyStartsWith c "004" = true) :
    dispatchChunk now r c =
      match parse_time now (firstLine c) with
      | Except.error e => Except.error e
      | Except.ok t =>
        match r.execTime with
        | none => Except.error PyErr.keyError
        | some ex =>
          match parse_resources c with
          | Except.error e => Except.error e
          | Except.ok u =>
            Except.ok { r with evictTime := some t,
                               runTime := some ((toSecs t : Int) - (toSecs ex : Int)),
                               usage := some u } := by
  have h0 : pyStartsWith c "000" = false := pyStartsWith_code_ne h (by decide)
  have h1 : pyStartsWith c "001" = false := pyStartsWith_code_ne h (by decide)
  simp [dispatchChunk, h, h0, h1]

theorem dispatch_code005 (now : Now) (r : JobReport) (c : String)
    (h : pyStartsWith c "005" = true) :
    dispatchChunk now r c =
      match parse_time now (firstLine c) with
      | Except.error e => Except.error e
      | Except.ok t =>
        match r.execTime with
        | none => Except.error PyErr.keyError
        | some ex =>
          match parse_resources c with
          | Except.error e => Except.error e
          | Except.ok u =>
            Except.ok { r with termTime := some t,
                               runTime := some ((toSecs t : Int) - (toSecs ex : Int)),
                               usage := some u } := by
  have h0 : pyStartsWith c "000" = false := pyStartsWith_code_ne h (by decide)
  have h1 : pyStartsWith c "001" = false := pyStartsWith_code_ne h (by decide)
  have h4 : pyStartsWith c "004" = false := pyStartsWith_code_ne h (by decide)
  simp [dispatchChunk, h, h0, h1, h4]

theorem dispatch_code006 (now : Now) (r : JobReport) (c : String)
    (h : pyStartsWith c "006" = true) :
    dispatchChunk now r c = Except.ok r := by
  have h0 : pyStartsWith c "000" = false := pyStartsWith_code_ne h (by decide)
  have h1 : pyStartsWith c "001" = false := pyStartsWith_code_ne h (by decide)
  have h4 : pyStartsWith c "004" = false := pyStartsWith_code_ne h (by decide)
  have h5 : pyStartsWith c "005" = false := pyStartsWith_code_ne h (by decide)
  simp [dispatchChunk, h, h0, h1, h4, h5]

theorem dispatch_code009 (now : Now) (r : JobReport) (c : String)
    (h : pyStartsWith c "009" = true) :
    dispatchChunk now r c =
      match parse_time now (firstLine c) with
      | Except.error e => Except.error e
      | Except.ok t => Except.ok { r with abortedTime := some t } := by
  have h0 : pyStartsWith c "000" = false := pyStartsWith_code_ne h (by decide)
  have h1 : pyStartsWith c "001" = false := pyStartsWith_code_ne h (by decide)
  have h4 : pyStartsWith c "004" = false := pyStartsWith_code_ne h (by decide)
  have h5 : pyStartsWith c "005" = false := pyStartsWith_code_ne h (by decide)
  have h6 : pyStartsWith c "006" = false := pyStartsWith_code_ne h (by decide)
  simp [dispatchChunk, h, h0, h1, h4, h5, h6]

theorem dispatch_unknown (now : Now) (r : JobReport) (c : String)
    (h0 : pyStartsWith c "000" = false) (h1 : pyStartsWith c "001" = false)
    (h4 : pyStartsWith c "004" = false) (h5 : pyStartsWith c "005" = false)
    (h6 : pyStartsWith c "006" = false) (h9 : pyStartsWith c "009" = false) :
    dispatchChunk now r c = Except.ok r := by
  simp [dispatchChunk, h0, h1, h4, h5, h6, h9]

theorem lineFoldE_eq_chunks (now : Now) (ls : List String) :
    ∀ (r : JobReport) (buf : String),
      lineFoldE now r buf ls =
        match chunkFoldE now r (chunksAux buf ls).1 with
        | Except.error e => Except.error e
        | Except.ok r2 => Except.ok (r2, (chunksAux buf ls).2) := by
  induction ls with
  | nil => intro r buf; simp [lineFoldE, chunksAux, chunkFoldE]
  | cons l t ih =>
    intro r buf
    cases h : pyStartsWith l "..." with
    | false => simp [lineFoldE, chunksAux, h, ih]
    | true =>
      simp only [lineFoldE, chunksAux, h, if_true]
      cases hd : dispatchChunk now r buf with
      | error e => simp [chunkFoldE, hd]
      | ok r2 => simp [chunkFoldE, hd, ih]

theorem chunkFoldE_append (now : Now) (cs cs2 : List String) :
    ∀ r : JobReport,
      chunkFoldE now r (cs ++ cs2) =
        match chunkFoldE now r cs with
        | Except.error e => Except.error e
        | Except.ok r2 => chunkFoldE now r2 cs2 := by
  induction cs with
  | nil => intro r; simp [chunkFoldE]
  | cons c t ih =>
    intro r
    cases hd : dispatchChunk now r c with
    | error e => simp [chunkFoldE, hd]
    | ok r2 => simp [chunkFoldE, hd, ih]

theorem read_log_chunks (now : Now) (p : String) (ls : List String) :
    read_log now p (some ls) =
      match chunkFoldE now (initReport p) (chunksAux "" ls).1 with
      | Except.error e => Except.error e
      | Except.ok r => Except.ok (some r) := by
  simp only [read_log]
  rw [lineFoldE_eq_chunks]
  cases chunkFoldE now (initReport p) (chunksAux "" ls).1 <;> rfl

theorem dispatch_execTime (now : Now) (r : JobReport) (c : String) (r2 : JobReport)
    (h : dispatchChunk now r c = Except.ok r2) :
    r2.execTime =
      (if pyStartsWith c "001" then
        (match parse_time now (firstLine c) with
         | Except.ok t => some t
         | Except.error _ => r.execTime)
      else r.execTime) := by
  cases h0 : pyStartsWith c "000" with
  | true =>
    have h1 : pyStartsWith c "001" = false := pyStartsWith_code_ne h0 (by decide)
    rw [dispatch_code000 now r c h0] at h
    cases hp : parse_time now (firstLine c) with
    | error e => rw [hp] at h; simp at h
    | ok t => rw [hp] at h; simp at h; subst h; simp [h1]
  | false =>
    cases h1 : pyStartsWith c "001" with
    | true =>
      rw [dispatch_code001 now r c h1] at h
      cases hp : parse_time now (firstLine c) with
      | error e => rw [hp] at h; simp at h
      | ok t => rw [hp] at h; simp at h; subst h; simp [h1, hp]
    | false =>
      cases h4 : pyStartsWith c "004" with
      | true =>
        rw [dispatch_code004 now r c h4] at h
        cases hp : parse_time now (firstLine c) with
        | error e => rw [hp] at h; simp at h
        | ok t =>
          rw [hp] at h
          cases hex : r.execTime with
          | none => rw [hex] at h; simp at h
          | some ex =>
            rw [hex] at h
            cases hpr : parse_resources c with
            | error e => rw [hpr] at h; simp at h
            | ok u => rw [hpr] at h; simp at h; subst h; simp [h1, hex]
      | false =>
        cases h5 : pyStartsWith c "005" with
        | true =>
          rw [dispatch_code005 now r c h5] at h
          cases hp : parse_time now (firstLine c) with
          | error e => rw [hp] at h; simp at h
          | ok t =>
            rw [hp] at h
            cases hex : r.execTime with
            | none => rw [hex] at h; simp at h
            | some ex =>
              rw [hex] at h
              cases hpr : parse_resources c with
              | error e => rw [hpr] at h; simp at h
              | ok u => rw [hpr] at h; simp at h; subst h; simp [h1, hex]
        | false =>
          cases h6 : pyStartsWith c "006" with
          | true =>
            rw [dispatch_code006 now r c h6] at h
            simp at h; subst h; simp [h1]
          | false =>
            cases h9 : pyStartsWith c "009" with
            | true =>
              rw [dispatch_code009 now r c h9] at h
              cases hp : parse_time now (firstLine c) with
              | error e => rw [hp] at h; simp at h
              | ok t => rw [hp] at h; simp at h; subst h; simp [h1]
            | false =>
              rw [dispatch_unknown now r c h0 h1 h4 h5 h6 h9] at h
              simp at h; subst h; simp [h1]

theorem chunkFoldE_execTime (now : Now) (cs : List String) :
    ∀ (r r2 : JobReport), chunkFoldE now r cs = Except.ok r2 →
      r2.execTime = execAfter now r.execTime cs := by
  induction cs with
  | nil =>
    intro r r2 h
    simp [chunkFoldE] at h
    subst h
    simp [execAfter]
  | cons c t ih =>
    intro r r2 h
    simp only [chunkFoldE] at h
    cases hd : dispatchChunk now r c with
    | error e => rw [hd] at h; simp at h
    | ok r1 =>
      rw [hd] at h
      rw [ih r1 r2 h, dispatch_execTime now r c r1 hd]
      rfl

theorem resLine_no_match (u : Usage) (l : String)
    (hd : pyContains l "Disk" = false) (hm : pyContains l "Memory" = false) :
    resLine u l = Except.ok u := by
  simp [resLine, hd, hm]

theorem resFold_no_match (ls : List String) :
    ∀ u : Usage, (∀ l ∈ ls, pyContains l "Disk" = false ∧ pyContains l "Memory" = false) →
      resFold u ls = Except.ok u := by
  induction ls with
  | nil => intro u _; rfl
  | cons l t ih =>
    intro u hall
    obtain ⟨hd, hm⟩ := hall l (List.mem_cons_self l t)
    simp only [resFold, resLine_no_match u l hd hm]
    exact ih u (fun x hx => hall x (List.mem_cons_of_mem l hx))

theorem resLine_err (u : Usage) (l : String) (e : PyErr)
    (h : resLine u l = Except.error e) : e = PyErr.indexError := by
  cases hd : pyContains l "Disk" <;> cases hm : pyContains l "Memory" <;>
    cases hn : firstNum l <;> simp [resLine, hd, hm, hn] at h <;> simp [h]

theorem resLine_bad (u : Usage) (l : String)
    (hmatch : pyContains l "Disk" = true ∨ pyContains l "Memory" = true)
    (hn : firstNum l = none) : resLine u l = Except.error PyErr.indexError := by
  cases hd : pyContains l "Disk" with
  | true => simp [resLine, hd, hn]
  | false =>
    have hm : pyContains l "Memory" = true := by
      cases hmatch with
      | inl h => rw [h] at hd; cases hd
      | inr h => exact h
    simp [resLine, hd, hm, hn]

theorem resFold_bad (ls : List String) :
    ∀ u : Usage,
      (∃ l ∈ ls, (pyContains l "Disk" = true ∨ pyContains l "Memory" = true) ∧
        firstNum l = none) →
      resFold u ls = Except.error PyErr.indexError := by
  induction ls with
  | nil => intro u h; simp at h
  | cons l t ih =>
    intro u h
    obtain ⟨x, hx, hmatch, hn⟩ := h
    rcases List.mem_cons.mp hx with rfl | hxt
    · simp [resFold, resLine_bad u x hmatch hn]
    · cases hr : resLine u l with
      | error e =>
        rw [resLine_err u l e hr] at hr
        simp [resFold, hr]
      | ok u2 =>
        simp only [resFold, hr]
        exact ih u2 ⟨x, hxt, hmatch, hn⟩

theorem resLine_disk (u : Usage) (l : String) (n : Nat)
    (hd : pyContains l "Disk" = true) (hn : firstNum l = some n) :
    ∃ u2, resLine u l = Except.ok u2 ∧ u2.diskUsage = some n := by
  cases hm : pyContains l "Memory" with
  | false =>
    exact ⟨{ diskUsage := some n, memUsage := u.memUsage },
      by simp [resLine, hd, hm, hn], rfl⟩
  | true =>
    exact ⟨{ diskUsage := some n, memUsage := some n },
      by simp [resLine, hd, hm, hn], rfl⟩

theorem resLine_mem (u : Usage) (l : String) (n : Nat)
    (hm : pyContains l "Memory" = true) (hn : firstNum l = some n) :
    ∃ u2, resLine u l = Except.ok u2 ∧ u2.memUsage = some n := by
  cases hd : pyContains l "Disk" with
  | false =>
    exact ⟨{ diskUsage := u.diskUsage, memUsage := some n },
      by simp [resLine, hd, hm, hn], rfl⟩
  | true =>
    exact ⟨{ diskUsage := some n, memUsage := some n },
      by simp [resLine, hd, hm, hn], rfl⟩

theorem dispatch_same_code (now : Now) (r : JobReport) (c c2 code : String) (r1 : JobReport)
    (hcode : code = "000" ∨ code = "001" ∨ code = "004" ∨ code = "005" ∨
      code = "006" ∨ code = "009")
    (hc : pyStartsWith c code = true) (hc2 : pyStartsWith c2 code = true)
    (hd : dispatchChunk now r c = Except.ok r1) :
    dispatchChunk now r1 c2 = dispatchChunk now r c2 := by
  obtain ⟨rp, rsub, rexec, rev, rterm, rab, rrt, rus⟩ := r
  rcases hcode with rfl | rfl | rfl | rfl | rfl | rfl
  · rw [dispatch_code000 now _ c hc] at hd
    cases hp : parse_time now (firstLine c) with
    | error e => rw [hp] at hd; exact absurd hd (by simp)
    | ok t =>
      rw [hp] at hd
      cases hd
      rw [dispatch_code000 now _ c2 hc2, dispatch_code000 now _ c2 hc2]
  · rw [dispatch_code001 now _ c hc] at hd
    cases hp : parse_time now (firstLine c) with
    | error e => rw [hp] at hd; exact absurd hd (by simp)
    | ok t =>
      rw [hp] at hd
      cases hd
      rw [dispatch_code001 now _ c2 hc2, dispatch_code001 now _ c2 hc2]
  · rw [dispatch_code004 now _ c hc] at hd
    cases hp : parse_time now (firstLine c) with
    | error e => rw [hp] at hd; exact absurd hd (by simp)
    | ok t =>
      rw [hp] at hd
      cases rexec with
      | none => exact absurd hd (by simp)
      | some ex =>
        cases hpr : parse_resources c with
        | error e => rw [hpr] at hd; exact absurd hd (by simp)
        | ok u =>
          rw [hpr] at hd
          cases hd
          rw [dispatch_code004 now _ c2 hc2, dispatch_code004 now _ c2 hc2]
  · rw [dispatch_code005 now _ c hc] at hd
    cases hp : parse_time now (firstLine c) with
    | error e => rw [hp] at hd; exact absurd hd (by simp)
    | ok t =>
      rw [hp] at hd
      cases rexec with
      | none => exact absurd hd (by simp)
      | some ex =>
        cases hpr : parse_resources c with
        | error e => rw [hpr] at hd; exact absurd hd (by simp)
        | ok u =>
          rw [hpr] at hd
          cases hd
          rw [dispatch_code005 now _ c2 hc2, dispatch_code005 now _ c2 hc2]
  · rw [dispatch_code006 now _ c hc] at hd
    cases hd
    rfl
  · rw [dispatch_code009 now _ c hc] at hd
    cases hp : parse_time now (firstLine c) with
    | error e => rw [hp] at hd; exact absurd hd (by simp)
    | ok t =>
      rw [hp] at hd
      cases hd
      rw [dispatch_code009 now _ c2 hc2, dispatch_code009 now _ c2 hc2]

theorem dispatch_term_overwrites_evict (now : Now) (r r1 r2 : JobReport) (c4 c5 : String)
    (h4 : pyStartsWith c4 "004" = true) (h5 : pyStartsWith c5 "005" = true)
    (hd4 : dispatchChunk now r c4 = Except.ok r1)
    (hd5 : dispatchChunk now r1 c5 = Except.ok r2) :
    Except.map (fun x : JobReport => (x.runTime, x.usage)) (dispatchChunk now r c5)
      = Except.ok (r2.runTime, r2.usage) := by
  obtain ⟨rp, rsub, rexec, rev, rterm, rab, rrt, rus⟩ := r
  rw [dispatch_code004 now _ c4 h4] at hd4
  cases hp4 : parse_time now (firstLine c4) with
  | error e => rw [hp4] at hd4; exact absurd hd4 (by simp)
  | ok t4 =>
    rw [hp4] at hd4
    cases rexec with
    | none => exact absurd hd4 (by simp)
    | some ex =>
      cases hpr4 : parse_resources c4 with
      | error e => rw [hpr4] at hd4; exact absurd hd4 (by simp)
      | ok u4 =>
        rw [hpr4] at hd4
        cases hd4
        rw [dispatch_code005 now _ c5 h5] at hd5
        rw [dispatch_code005 now _ c5 h5]
        cases hp5 : parse_time now (firstLine c5) with
        | error e => rw [hp5] at hd5; exact absurd hd5 (by simp)
        | ok t5 =>
          rw [hp5] at hd5
          cases hpr5 : parse_resources c5 with
          | error e => rw [hpr5] at hd5; exact absurd hd5 (by simp)
          | ok u5 =>
            rw [hpr5] at hd5
            cases hd5
            rfl

/-! ### Claim theorems -/

/-- C1: the claim says `parse_time` on a well-formed first line whose
date tokens are `12/29` and `15:16:50` resolves to year 2023 both when
"now" is 2024-01-05 and when "now" is 2023-12-30.  The code instead
raises `ValueError` on exactly this input (the docstring's own example):
the `strptime` format string is `'%Y-%m-%d %H:%M:%S'`, which never
matches an `MM/DD HH:MM:SS` fragment, so the year-inference branch is
unreachable for the documented input format. -/
theorem claim_C1_parse_time_mmdd_raises :
    parse_time ⟨2024, 1⟩
        "001 (132663.000.000) 12/29 15:16:50 Job executing on host: <128.105.244.247:35219>"
      = Except.error PyErr.valueError ∧
    parse_time ⟨2023, 12⟩
        "001 (132663.000.000) 12/29 15:16:50 Job executing on host: <128.105.244.247:35219>"
      = Except.error PyErr.valueError := by
  exact ⟨by decide, by decide⟩

/-- C2: the claim says `parse_time` succeeds on every fragment matching
the in-range two-token `MM/DD` + `HH:MM:SS` shape and fails exactly on
the rest.  Both directions are false on the code: the in-range fragment
`01/02 03:04:05` raises `ValueError`, while the fragment
`2024-01-02 03:04:05` — which does not match the `MM/DD` shape at
all — succeeds, because the format string actually used is
`'%Y-%m-%d %H:%M:%S'`. -/
theorem claim_C2_parse_time_shape_refuted :
    parse_time ⟨2024, 5⟩ "005 (1.0.0) 01/02 03:04:05 Job terminated."
      = Except.error PyErr.valueError ∧
    parse_time ⟨2024, 5⟩ "005 (1.0.0) 2024-01-02 03:04:05 Job terminated."
      = Except.ok ⟨2024, 1, 2, 3, 4, 5⟩ := by
  exact ⟨by decide, by decide⟩

/-- C5: `parse_resources` takes, from each line containing `"Disk"`
(resp. `"Memory"`), the first purely-numeric whitespace token as
`diskUsage` (resp. `memUsage`); on the spec's example table it returns
`diskUsage = 1024` and `memUsage = 512`, and on a chunk with no matching
lines it returns the empty mapping rather than an error. -/
theorem claim_C5_parse_resources_first_token :
    parse_resources
        "Disk Usage of job (KB)     :  1024  2048  50\nMemory (MB)                :  512  1024"
      = Except.ok { diskUsage := some 1024, memUsage := some 512 } ∧
    (∀ chunk : String,
      (∀ l ∈ pySplitOnChar '\n' chunk,
        pyContains l "Disk" = false ∧ pyContains l "Memory" = false) →
      parse_resources chunk = Except.ok {}) ∧
    (∀ (u : Usage) (l : String) (n : Nat),
      pyContains l "Disk" = true → firstNum l = some n →
      ∃ u2, resLine u l = Except.ok u2 ∧ u2.diskUsage = some n) ∧
    (∀ (u : Usage) (l : String) (n : Nat),
      pyContains l "Memory" = true → firstNum l = some n →
      ∃ u2, resLine u l = Except.ok u2 ∧ u2.memUsage = some n) := by
  refine ⟨by decide, ?_, resLine_disk, resLine_mem⟩
  intro chunk hall
  unfold parse_resources
  exact resFold_no_match _ {} hall

/-- C5 witness: the general parts of the claim applied to the empty-table
chunk and to the spec's two example lines. -/
theorem claim_C5_witness :
    parse_resources "chunk with no usage lines\nsecond line" = Except.ok {} ∧
    (∃ u2, resLine {} "Disk Usage of job (KB)     :  1024  2048  50" = Except.ok u2 ∧
      u2.diskUsage = some 1024) ∧
    (∃ u2, resLine {} "Memory (MB)                :  512  1024" = Except.ok u2 ∧
      u2.memUsage = some 512) :=
  ⟨claim_C5_parse_resources_first_token.2.1 _ (by decide),
   claim_C5_parse_resources_first_token.2.2.1 {} _ 1024 (by decide) (by decide),
   claim_C5_parse_resources_first_token.2.2.2 {} _ 512 (by decide) (by decide)⟩

/-- C6: dispatching a chunk classified as code 009 sets `abortedTime`
from the first line's timestamp and leaves every other `JobReport`
field — `runTime` included — unchanged, even when `execTime` is
present (the commented-out recomputation in the source). -/
theorem claim_C6_dispatch_009_frame (now : Now) (r : JobReport) (c : String) (t : DateTime)
    (h : pyStartsWith c "009" = true)
    (hp : parse_time now (firstLine c) = Except.ok t) :
    dispatchChunk now r c = Except.ok { r with abortedTime := some t } := by
  rw [dispatch_code009 now r c h, hp]

/-- C6 witness: a 009 chunk dispatched on a report whose `execTime` and
`runTime` are set only fills `abortedTime`; `runTime` keeps its prior
value 5. -/
theorem claim_C6_witness :
    dispatchChunk ⟨2024, 1⟩
        { path := "p", execTime := some ⟨2023, 12, 29, 15, 16, 50⟩, runTime := some 5 }
        "009 (1.0.0) 2023-12-29 15:17:50 Job was aborted\n"
      = Except.ok { path := "p", execTime := some ⟨2023, 12, 29, 15, 16, 50⟩,
                    runTime := some 5,
                    abortedTime := some ⟨2023, 12, 29, 15, 17, 50⟩ } :=
  claim_C6_dispatch_009_frame ⟨2024, 1⟩
    { path := "p", execTime := some ⟨2023, 12, 29, 15, 16, 50⟩, runTime := some 5 }
    "009 (1.0.0) 2023-12-29 15:17:50 Job was aborted\n"
    ⟨2023, 12, 29, 15, 17, 50⟩ (by decide) (by decide)

/-- C7 counterexample: the claim says a chunk whose first
whitespace-delimited token is a longer digit string extending a known
code (here `0001`) is discarded and contributes nothing.  In the code,
classification is `chunk.startswith("000")`, so this chunk is dispatched
as a 000 submit event and sets `subTime`. -/
theorem claim_C7_counterexample :
    dispatchChunk ⟨2024, 5⟩ (initReport "p") "0001 (1.0) 2024-03-02 10:00:00 x\n"
      = Except.ok { path := "p", subTime := some ⟨2024, 3, 2, 10, 0, 0⟩ } ∧
    dispatchChunk ⟨2024, 5⟩ (initReport "p") "0001 (1.0) 2024-03-02 10:00:00 x\n"
      ≠ Except.ok (initReport "p") := by
  exact ⟨by decide, by decide⟩

/-- C7 (amended): classification is decided by whether the chunk's text
starts with one of the literal prefixes `000`, `001`, `004`, `005`,
`006`, `009` (tested in that order) — not by token equality.  A chunk
starting with none of the six prefixes is discarded and contributes
nothing; a chunk starting with `000` (hence also `0001...`) is dispatched
as a submit event. -/
theorem claim_C7_prefix_classification :
    (∀ (now : Now) (r : JobReport) (c : String),
      pyStartsWith c "000" = false → pyStartsWith c "001" = false →
      pyStartsWith c "004" = false → pyStartsWith c "005" = false →
      pyStartsWith c "006" = false → pyStartsWith c "009" = false →
      dispatchChunk now r c = Except.ok r) ∧
    (∀ (now : Now) (r : JobReport) (c : String),
      pyStartsWith c "000" = true →
      dispatchChunk now r c =
        match parse_time now (firstLine c) with
        | Except.error e => Except.error e
        | Except.ok t => Except.ok { r with subTime := some t }) :=
  ⟨dispatch_unknown, dispatch_code000⟩

/-- C7 witness: a chunk starting with an unrecognized token is a no-op;
a chunk starting with `0001` is dispatched as a 000 submit event. -/
theorem claim_C7_witness :
    dispatchChunk ⟨2024, 5⟩ (initReport "p") "123 x" = Except.ok (initReport "p") ∧
    dispatchChunk ⟨2024, 5⟩ (initReport "p") "0001 (1.0) 2024-03-02 10:00:00 x\n"
      = Except.ok { path := "p", subTime := some ⟨2024, 3, 2, 10, 0, 0⟩ } :=
  ⟨claim_C7_prefix_classification.1 ⟨2024, 5⟩ (initReport "p") "123 x"
      (by decide) (by decide) (by decide) (by decide) (by decide) (by decide),
   (claim_C7_prefix_classification.2 ⟨2024, 5⟩ (initReport "p")
      "0001 (1.0) 2024-03-02 10:00:00 x\n" (by decide)).trans (by decide)⟩

/-- C9: when the file cannot be opened (`IOError` on `open`, modelled by
a `none` file argument), `read_log` returns the absent result
`Except.ok none` — a recoverable condition, not a raised error. -/
theorem claim_C9_absent_on_open_failure (now : Now) (p : String) :
    read_log now p none = Except.ok none := rfl

/-- C10 (implicit): a chunk containing a line with the substring `"Disk"`
or `"Memory"` but no purely-numeric whitespace token makes
`parse_resources` fail with `IndexError` (`numbers[0]` on an empty list)
instead of returning a mapping without the corresponding key. -/
theorem claim_C10_missing_number_fails (chunk : String)
    (h : ∃ l ∈ pySplitOnChar '\n' chunk,
      (pyContains l "Disk" = true ∨ pyContains l "Memory" = true) ∧
        firstNum l = none) :
    parse_resources chunk = Except.error PyErr.indexError := by
  unfold parse_resources
  exact resFold_bad _ {} h

/-- C10 witness: a single `"Disk"` line with no numeric token. -/
theorem claim_C10_witness :
    parse_resources "Disk quota exceeded" = Except.error PyErr.indexError :=
  claim_C10_missing_number_fails "Disk quota exceeded"
    ⟨"Disk quota exceeded", by decide, Or.inl (by decide), by decide⟩

/-- C4: if a 004/005 chunk is dispatched while the report so far has no
`execTime`, the whole single-file read fails with the propagated
`KeyError` (distinguishable from the absent-result `Except.ok none`) and
no partial `JobReport` is returned; the missing execution time is never
defaulted or skipped. -/
theorem claim_C4_missing_exec_fails (now : Now) (p : String)
    (ls cs1 cs2 : List String) (c : String) (tc : DateTime) (r1 : JobReport)
    (hcs : (chunksAux "" ls).1 = cs1 ++ c :: cs2)
    (hcode : pyStartsWith c "004" = true ∨ pyStartsWith c "005" = true)
    (hpre : chunkFoldE now (initReport p) cs1 = Except.ok r1)
    (hnoexec : r1.execTime = none)
    (ht : parse_time now (firstLine c) = Except.ok tc) :
    read_log now p (some ls) = Except.error PyErr.keyError := by
  have hd : dispatchChunk now r1 c = Except.error PyErr.keyError := by
    cases hcode with
    | inl h => rw [dispatch_code004 now r1 c h, ht, hnoexec]
    | inr h => rw [dispatch_code005 now r1 c h, ht, hnoexec]
  rw [read_log_chunks, hcs, chunkFoldE_append now cs1 (c :: cs2) (initReport p),
    hpre]
  simp only [chunkFoldE, hd]

/-- C4 witness: a log whose only chunk is an evict event, with no prior
001 chunk; the read fails with `KeyError`, not `Except.ok none`. -/
theorem claim_C4_witness :
    read_log ⟨2024, 5⟩ "p"
        (some ["004 (1.0.0) 2024-03-02 10:00:00 Job was evicted\n", "...\n"])
      = Except.error PyErr.keyError :=
  claim_C4_missing_exec_fails ⟨2024, 5⟩ "p"
    ["004 (1.0.0) 2024-03-02 10:00:00 Job was evicted\n", "...\n"]
    [] [] "004 (1.0.0) 2024-03-02 10:00:00 Job was evicted\n"
    ⟨2024, 3, 2, 10, 0, 0⟩ (initReport "p")
    (by decide) (Or.inl (by decide)) (by decide) (by decide) (by decide)

/-- C3: for every log the reader parses successfully whose last
dispatched chunk is an evict (004) or terminate (005) event, with an
earlier 001 chunk supplying `execTime`, the final report's `runTime` is
exactly the terminal event time minus `execTime` in whole seconds, and
it is nonnegative whenever the timestamps are chronological. -/
theorem claim_C3_runTime_terminal_sub_exec (now : Now) (p : String)
    (ls cs1 : List String) (c : String) (tc ex : DateTime) (r : JobReport)
    (hcs : (chunksAux "" ls).1 = cs1 ++ [c])
    (hcode : pyStartsWith c "004" = true ∨ pyStartsWith c "005" = true)
    (ht : parse_time now (firstLine c) = Except.ok tc)
    (hex : execAfter now none cs1 = some ex)
    (hr : read_log now p (some ls) = Except.ok (some r)) :
    r.runTime = some ((toSecs tc : Int) - (toSecs ex : Int)) ∧
      (toSecs ex ≤ toSecs tc →
        (0 : Int) ≤ (toSecs tc : Int) - (toSecs ex : Int)) := by
  rw [read_log_chunks, hcs, chunkFoldE_append now cs1 [c] (initReport p)] at hr
  cases h1 : chunkFoldE now (initReport p) cs1 with
  | error e => rw [h1] at hr; simp at hr
  | ok r1 =>
    rw [h1] at hr
    simp only [chunkFoldE] at hr
    have hexec1 : r1.execTime = some ex := by
      have h2 := chunkFoldE_execTime now cs1 (initReport p) r1 h1
      rw [h2]
      exact hex
    cases hd : dispatchChunk now r1 c with
    | error e => rw [hd] at hr; simp at hr
    | ok rd =>
      rw [hd] at hr
      simp only [chunkFoldE] at hr
      have hrd : rd = r := by
        cases hr
        rfl
      subst hrd
      refine ⟨?_, fun hle => by omega⟩
      cases hcode with
      | inl h =>
        rw [dispatch_code004 now r1 c h, ht, hexec1] at hd
        cases hpr : parse_resources c with
        | error e => rw [hpr] at hd; simp at hd
        | ok u =>
          rw [hpr] at hd
          cases hd
          rfl
      | inr h =>
        rw [dispatch_code005 now r1 c h, ht, hexec1] at hd
        cases hpr : parse_resources c with
        | error e => rw [hpr] at hd; simp at hd
        | ok u =>
          rw [hpr] at hd
          cases hd
          rfl

/-- C3 witness: a log with a 001 chunk at 10:00:00 and a terminating 005
chunk at 10:00:30; the final report's `runTime` is 30 seconds and
nonnegative. -/
theorem claim_C3_witness :
    ({ path := "p", execTime := some ⟨2024, 3, 2, 10, 0, 0⟩,
       termTime := some ⟨2024, 3, 2, 10, 0, 30⟩, runTime := some 30,
       usage := some { memUsage := some 512 } } : JobReport).runTime
        = some ((toSecs ⟨2024, 3, 2, 10, 0, 30⟩ : Int)
            - (toSecs ⟨2024, 3, 2, 10, 0, 0⟩ : Int)) ∧
      (toSecs (⟨2024, 3, 2, 10, 0, 0⟩ : DateTime)
          ≤ toSecs (⟨2024, 3, 2, 10, 0, 30⟩ : DateTime) →
        (0 : Int) ≤ (toSecs ⟨2024, 3, 2, 10, 0, 30⟩ : Int)
            - (toSecs ⟨2024, 3, 2, 10, 0, 0⟩ : Int)) :=
  claim_C3_runTime_terminal_sub_exec ⟨2024, 5⟩ "p"
    ["001 (1.0.0) 2024-03-02 10:00:00 Job executing\n", "...\n",
     "005 (1.0.0) 2024-03-02 10:00:30 Job terminated\n", "Memory (MB) : 512\n", "...\n"]
    ["001 (1.0.0) 2024-03-02 10:00:00 Job executing\n"]
    "005 (1.0.0) 2024-03-02 10:00:30 Job terminated\nMemory (MB) : 512\n"
    ⟨2024, 3, 2, 10, 0, 30⟩ ⟨2024, 3, 2, 10, 0, 0⟩
    { path := "p", execTime := some ⟨2024, 3, 2, 10, 0, 0⟩,
      termTime := some ⟨2024, 3, 2, 10, 0, 30⟩, runTime := some 30,
      usage := some { memUsage := some 512 } }
    (by decide) (Or.inr (by decide)) (by decide) (by decide) (by decide)

/-- C8: the report accumulates last-write-wins.  First conjunct: for two
chunks classified under the same event code, dispatching the second after
the first yields exactly the state obtained by dispatching the second
alone — every field written by the first chunk is overwritten by (or
equal to) the second chunk's values.  Second conjunct: a 005 terminate
chunk dispatched after a 004 evict chunk leaves `runTime` and `usage`
exactly as a dispatch of the terminate chunk alone would. -/
theorem claim_C8_last_write_wins :
    (∀ (now : Now) (r : JobReport) (c c2 code : String) (r1 : JobReport),
      (code = "000" ∨ code = "001" ∨ code = "004" ∨ code = "005" ∨
        code = "006" ∨ code = "009") →
      pyStartsWith c code = true → pyStartsWith c2 code = true →
      dispatchChunk now r c = Except.ok r1 →
      dispatchChunk now r1 c2 = dispatchChunk now r c2) ∧
    (∀ (now : Now) (r r1 r2 : JobReport) (c4 c5 : String),
      pyStartsWith c4 "004" = true → pyStartsWith c5 "005" = true →
      dispatchChunk now r c4 = Except.ok r1 →
      dispatchChunk now r1 c5 = Except.ok r2 →
      Except.map (fun x : JobReport => (x.runTime, x.usage)) (dispatchChunk now r c5)
        = Except.ok (r2.runTime, r2.usage)) :=
  ⟨fun now r c c2 code r1 hcode hc hc2 hd =>
      dispatch_same_code now r c c2 code r1 hcode hc hc2 hd,
   fun now r r1 r2 c4 c5 h4 h5 hd4 hd5 =>
      dispatch_term_overwrites_evict now r r1 r2 c4 c5 h4 h5 hd4 hd5⟩

/-- C8 witness: two successive evict chunks (same code 004), then a
terminate chunk after an evict chunk; the final `runTime`/`usage` come
from the later chunk in both cases. -/
theorem claim_C8_witness :
    dispatchChunk ⟨2024, 5⟩
        { path := "p", execTime := some ⟨2024, 3, 2, 10, 0, 0⟩,
          evictTime := some ⟨2024, 3, 2, 10, 0, 10⟩, runTime := some 10,
          usage := some { diskUsage := some 3 } }
        "004 (1.0.0) 2024-03-02 10:00:20 Job was evicted\nDisk Usage of job (KB) : 4\n"
      = dispatchChunk ⟨2024, 5⟩
          { path := "p", execTime := some ⟨2024, 3, 2, 10, 0, 0⟩ }
          "004 (1.0.0) 2024-03-02 10:00:20 Job was evicted\nDisk Usage of job (KB) : 4\n" ∧
    Except.map (fun x : JobReport => (x.runTime, x.usage))
        (dispatchChunk ⟨2024, 5⟩
          { path := "p", execTime := some ⟨2024, 3, 2, 10, 0, 0⟩ }
          "005 (1.0.0) 2024-03-02 10:00:30 Job terminated\nMemory (MB) : 7\n")
      = Except.ok (some 30, some { diskUsage := none, memUsage := some 7 }) :=
  ⟨claim_C8_last_write_wins.1 ⟨2024, 5⟩
      { path := "p", execTime := some ⟨2024, 3, 2, 10, 0, 0⟩ }
      "004 (1.0.0) 2024-03-02 10:00:10 Job was evicted\nDisk Usage of job (KB) : 3\n"
      "004 (1.0.0) 2024-03-02 10:00:20 Job was evicted\nDisk Usage of job (KB) : 4\n"
      "004"
      { path := "p", execTime := some ⟨2024, 3, 2, 10, 0, 0⟩,
        evictTime := some ⟨2024, 3, 2, 10, 0, 10⟩, runTime := some 10,
        usage := some { diskUsage := some 3 } }
      (Or.inr (Or.inr (Or.inl rfl))) (by decide) (by decide) (by decide),
   claim_C8_last_write_wins.2 ⟨2024, 5⟩
      { path := "p", execTime := some ⟨2024, 3, 2, 10, 0, 0⟩ }
      { path := "p", execTime := some ⟨2024, 3, 2, 10, 0, 0⟩,
        evictTime := some ⟨2024, 3, 2, 10, 0, 10⟩, runTime := some 10,
        usage := some { diskUsage := some 3 } }
      { path := "p", execTime := some ⟨2024, 3, 2, 10, 0, 0⟩,
        evictTime := some ⟨2024, 3, 2, 10, 0, 10⟩, termTime := some ⟨2024, 3, 2, 10, 0, 30⟩,
        runTime := some 30, usage := some { diskUsage := none, memUsage := some 7 } }
      "004 (1.0.0) 2024-03-02 10:00:10 Job was evicted\nDisk Usage of job (KB) : 3\n"
      "005 (1.0.0) 2024-03-02 10:00:30 Job terminated\nMemory (MB) : 7\n"
      (by decide) (by decide) (by decide) (by decide)⟩

end LogReader
